import Mathlib

/-!
Verification development for the scheduled-email subsystem of the
CA-Automations backend.

The Python source is shallowly embedded:
* calendar dates are modelled as `Int` (a day number); adding one day is `+ 1`;
  `d < d'`, `d ≤ d'` mirror Python `date` comparisons;
* a `datetime` is modelled as an `Int` minute count; `datetime.combine(d, t)`
  becomes `combineDT d t = d * 1440 + t` where a time of day is a minute
  offset `t : Nat` (`t < 1440` for well-formed rows);
* SQLAlchemy rows become Lean structures, the per-tick query filter becomes a
  boolean predicate over a row, and endpoint bodies become functions from an
  explicit database state to `Except`-wrapped new states;
* Python strings are Lean `String`s; `re.sub`/`re.search` calls are embedded
  as direct scanning functions over `List Char` that implement the specific
  patterns appearing in the source (`\{\{(\w+)\}\}`, `<[a-z][\s\S]*>`), with
  Python `\w` modelled as ASCII alphanumeric-or-underscore.
-/

/-- The `ScheduledEmailStatus` enum from `app/db/models/client_email_config.py`. -/
inductive EmailStatus where
  | pending
  | sent
  | failed
  | cancelled
deriving DecidableEq, Repr

/-- A time of day as a minute offset from midnight (`datetime.time`). -/
abbrev TimeOfDay := Nat

/-- Python `datetime.combine(d, t)`: the minute count of date `d` at time `t`. -/
def combineDT (d : Int) (t : TimeOfDay) : Int := d * 1440 + (t : Int)

/-- The calendar date of a datetime (its day number). -/
def dateOfDT (dt : Int) : Int := dt / 1440

/-- The `ScheduledEmail` ORM model from `app/db/models/client_email_config.py`
(the columns the scheduler and the configuration endpoints read or write). -/
structure ScheduledEmailRow where
  id : Nat
  client_id : Nat
  template_id : Option Nat
  recipient_emails : List String
  scheduled_date : Int
  scheduled_time : TimeOfDay
  scheduled_datetime : Int
  status : EmailStatus
  is_recurring : Bool
  recurrence_end_date : Option Int
  error_message : Option String
  sent_at : Option Int
deriving DecidableEq, Repr

/-- The filter built by `process_scheduled_emails`
(`app/core/email_scheduler.py` lines 75–92): `status == pending`,
`scheduled_datetime <= current_datetime`, and the `recurring_filter`
disjunction `(is_recurring == False) | ((is_recurring == True) &
((recurrence_end_date is None) | (recurrence_end_date >= current_date)))`. -/
def schedulerSelects (e : ScheduledEmailRow) (currentDatetime : Int) : Bool :=
  let currentDate := dateOfDT currentDatetime
  (e.status = EmailStatus.pending : Bool) &&
  (e.scheduled_datetime ≤ currentDatetime : Bool) &&
  ((e.is_recurring = false : Bool) ||
    ((e.is_recurring = true : Bool) &&
      ((e.recurrence_end_date = none : Bool) ||
        (match e.recurrence_end_date with
          | none => false
          | some r => (currentDate ≤ r : Bool)))))

/-- Function `create_next_recurring_email` (`app/core/email_scheduler.py` lines
442–482): the next-occurrence row added by `db.add`, or `none` when the
recurrence has ended.  `newId` stands for the fresh primary key the database
assigns on flush. -/
def create_next_recurring_email (e : ScheduledEmailRow) (newId : Nat) :
    Option ScheduledEmailRow :=
  let currentDate := e.scheduled_date
  let recurrenceEndDate := e.recurrence_end_date
  -- `if recurrence_end_date and current_date >= recurrence_end_date: return`
  if (match recurrenceEndDate with
      | some r => (r ≤ currentDate : Bool)
      | none => false) then
    none
  else
    -- `next_date = current_date + timedelta(days=1)`
    let nextDate := currentDate + 1
    -- `if recurrence_end_date and next_date > recurrence_end_date: return`
    if (match recurrenceEndDate with
        | some r => (r < nextDate : Bool)
        | none => false) then
      none
    else
      some
        { id := newId
          client_id := e.client_id
          template_id := e.template_id
          recipient_emails := e.recipient_emails
          scheduled_date := nextDate
          scheduled_time := e.scheduled_time
          scheduled_datetime := combineDT nextDate e.scheduled_time
          status := EmailStatus.pending
          is_recurring := true
          recurrence_end_date := recurrenceEndDate
          error_message := none
          sent_at := none }

/-- C1: for every `ScheduledEmail` row, the scheduler's per-tick query selects
the row iff `status = pending`, `scheduled_datetime ≤ now`, and
(`is_recurring = false`, or `recurrence_end_date` is null, or
`recurrence_end_date ≥ today`). -/
theorem scheduler_due_predicate (e : ScheduledEmailRow) (now : Int) :
    schedulerSelects e now = true ↔
      e.status = EmailStatus.pending ∧
      e.scheduled_datetime ≤ now ∧
      (e.is_recurring = false ∨ e.recurrence_end_date = none ∨
        ∃ r, e.recurrence_end_date = some r ∧ dateOfDT now ≤ r) := by
  unfold schedulerSelects
  cases h : e.recurrence_end_date <;>
    cases hr : e.is_recurring <;>
      (simp [h, hr]; try tauto)

/-- C2: a recurring row that finished a send produces a successor iff
`recurrence_end_date` is null or `scheduled_date < recurrence_end_date`;
the created row is `pending`, dated one day later, with the same time,
recipients, recurring flag and end date. -/
theorem recurrence_continuation (e : ScheduledEmailRow) (newId : Nat) :
    ((create_next_recurring_email e newId).isSome = true ↔
      (e.recurrence_end_date = none ∨
        ∃ r, e.recurrence_end_date = some r ∧ e.scheduled_date < r)) ∧
    (∀ row, create_next_recurring_email e newId = some row →
      row.status = EmailStatus.pending ∧
      row.scheduled_date = e.scheduled_date + 1 ∧
      row.scheduled_time = e.scheduled_time ∧
      row.recipient_emails = e.recipient_emails ∧
      row.is_recurring = true ∧
      row.recurrence_end_date = e.recurrence_end_date) := by
  constructor
  · cases h : e.recurrence_end_date with
    | none => simp [create_next_recurring_email, h]
    | some r =>
      by_cases hle : r ≤ e.scheduled_date
      · have h2 : ¬ e.scheduled_date < r := by omega
        simp [create_next_recurring_email, h, hle, h2]
      · have h2 : ¬ r < e.scheduled_date + 1 := by omega
        simp [create_next_recurring_email, h, hle, h2]
        omega
  · intro row hrow
    unfold create_next_recurring_email at hrow
    dsimp only at hrow
    split at hrow
    · exact absurd hrow (by simp)
    · split at hrow
      · exact absurd hrow (by simp)
      · cases hrow
        simp

/-- A concrete recurring row used to instantiate `recurrence_continuation`. -/
def sampleRecurringRow : ScheduledEmailRow :=
  { id := 1
    client_id := 2
    template_id := some 3
    recipient_emails := ["a@x.com", "b@x.com"]
    scheduled_date := 100
    scheduled_time := 540
    scheduled_datetime := combineDT 100 540
    status := EmailStatus.sent
    is_recurring := true
    recurrence_end_date := none
    error_message := none
    sent_at := some (combineDT 100 541) }

/-- Witness for C2: the open-ended sample row yields exactly the successor row
described by `recurrence_continuation`. -/
theorem recurrence_continuation_witness :
    (create_next_recurring_email sampleRecurringRow 7).isSome = true ∧
    ((create_next_recurring_email sampleRecurringRow 7).getD sampleRecurringRow).status
        = EmailStatus.pending ∧
    ((create_next_recurring_email sampleRecurringRow 7).getD sampleRecurringRow).scheduled_date
        = sampleRecurringRow.scheduled_date + 1 ∧
    ((create_next_recurring_email sampleRecurringRow 7).getD sampleRecurringRow).scheduled_time
        = sampleRecurringRow.scheduled_time ∧
    ((create_next_recurring_email sampleRecurringRow 7).getD sampleRecurringRow).recipient_emails
        = sampleRecurringRow.recipient_emails ∧
    ((create_next_recurring_email sampleRecurringRow 7).getD sampleRecurringRow).is_recurring
        = true ∧
    ((create_next_recurring_email sampleRecurringRow 7).getD sampleRecurringRow).recurrence_end_date
        = sampleRecurringRow.recurrence_end_date := by
  have hsome : (create_next_recurring_email sampleRecurringRow 7).isSome = true :=
    (recurrence_continuation sampleRecurringRow 7).1.mpr (Or.inl rfl)
  have hfields := (recurrence_continuation sampleRecurringRow 7).2
    ((create_next_recurring_email sampleRecurringRow 7).getD sampleRecurringRow)
    (by decide)
  exact ⟨hsome, hfields.1, hfields.2.1, hfields.2.2.1, hfields.2.2.2.1,
    hfields.2.2.2.2.1, hfields.2.2.2.2.2⟩

/-! ### Retry executor (`send_email_with_retry`, email_scheduler.py 288–349) -/

/-- Outcome of one underlying `send_email` transport call: the coroutine
either returns a boolean or raises an exception carrying a message. -/
inductive TransportResult where
  | returned (b : Bool)
  | raised (msg : String)

/-- Prefix test on character lists (Python substring matching helper). -/
def charsPrefixOf : List Char → List Char → Bool
  | [], _ => true
  | _ :: _, [] => false
  | a :: as, b :: bs => a = b && charsPrefixOf as bs

/-- Whether `needle` occurs as a contiguous infix of the second list. -/
def charsInfixOf (needle : List Char) : List Char → Bool
  | [] => charsPrefixOf needle []
  | c :: rest => charsPrefixOf needle (c :: rest) || charsInfixOf needle rest

/-- Python `sub in s` substring containment on strings. -/
def strContains (s sub : String) : Bool := charsInfixOf sub.data s.data

/-- Python `s.lower()` (ASCII case folding, as used on SMTP error texts). -/
def lowerStr (s : String) : String := String.mk (s.data.map Char.toLower)

/-- The keyword list of the retryable-error classifier in
`send_email_with_retry` (email_scheduler.py lines 333–335). -/
def retryableKeywords : List String :=
  ["timeout", "timed out", "connection", "network", "temporary"]

/-- The check `is_retryable = any(keyword in error_lower for keyword in [...])`. -/
def isRetryableError (msg : String) : Bool :=
  retryableKeywords.any (fun k => strContains (lowerStr msg) k)

/-- Observable behaviour of one `send_email_with_retry` call: how many
transport attempts were made, the backoff sleeps performed between attempts
(in seconds, in order), and the returned `(success, error_message)` pair. -/
structure RetryTrace where
  attempts : Nat
  waits : List Nat
  success : Bool
  error : Option String
deriving DecidableEq, Repr

/-- The `for attempt in range(1, max_retries + 1)` loop body of
`send_email_with_retry` (email_scheduler.py lines 305–349).  `transport a` is
the outcome of the `await send_email(...)` call on attempt `a`; `remaining`
counts the loop iterations left (`max_retries + 1 - attempt`).  On a `True`
return the wrapper returns `(True, None)`; on a `False` return it sleeps
`attempt * 2` seconds when `attempt < max_retries` and loops; on a raised
error it sleeps and loops when the error is retryable and attempts remain,
and otherwise returns `(False, str(e))`; a completed loop returns
`(False, "Failed after N attempts")`. -/
def retryLoop (transport : Nat → TransportResult) (maxRetries : Nat) :
    Nat → Nat → RetryTrace
  | _, 0 =>
    { attempts := 0, waits := [], success := false,
      error := some ("Failed after " ++ toString maxRetries ++ " attempts") }
  | attempt, remaining + 1 =>
    match transport attempt with
    | TransportResult.returned true =>
      { attempts := 1, waits := [], success := true, error := none }
    | TransportResult.returned false =>
      let rest := retryLoop transport maxRetries (attempt + 1) remaining
      { attempts := rest.attempts + 1,
        waits := (if attempt < maxRetries then [attempt * 2] else []) ++ rest.waits,
        success := rest.success, error := rest.error }
    | TransportResult.raised msg =>
      if isRetryableError msg && attempt < maxRetries then
        let rest := retryLoop transport maxRetries (attempt + 1) remaining
        { attempts := rest.attempts + 1,
          waits := attempt * 2 :: rest.waits,
          success := rest.success, error := rest.error }
      else
        { attempts := 1, waits := [], success := false, error := some msg }

/-- Function `send_email_with_retry` with `max_retries = maxRetries`
(defaulted from `settings.SMTP_RETRY_ATTEMPTS` at the call site). -/
def send_email_with_retry (transport : Nat → TransportResult)
    (maxRetries : Nat) : RetryTrace :=
  retryLoop transport maxRetries 1 maxRetries

/-- C4: a non-retryable transport error on the first attempt means exactly one
transport attempt, no backoff sleeps, and an immediate failure return carrying
that error message. -/
theorem retry_terminal_error_single_attempt
    (transport : Nat → TransportResult) (maxRetries : Nat) (msg : String)
    (hmax : 1 ≤ maxRetries)
    (hfirst : transport 1 = TransportResult.raised msg)
    (hnr : isRetryableError msg = false) :
    send_email_with_retry transport maxRetries =
      { attempts := 1, waits := [], success := false, error := some msg } := by
  unfold send_email_with_retry
  obtain ⟨k, hk⟩ : ∃ k, maxRetries = k + 1 := ⟨maxRetries - 1, by omega⟩
  rw [hk]
  simp [retryLoop, hfirst, hnr]

/-- Witness for C4: an authentication failure (message matching none of the
retryable keywords) is returned after exactly one attempt. -/
theorem retry_terminal_error_single_attempt_witness :
    send_email_with_retry
        (fun _ => TransportResult.raised "Authentication failed: invalid credentials") 3 =
      { attempts := 1, waits := [], success := false,
        error := some "Authentication failed: invalid credentials" } :=
  retry_terminal_error_single_attempt _ 3 _ (by decide) rfl (by decide)

/-- One unfolding step of `retryLoop` in the retryable-raise branch. -/
theorem retryLoop_raised_step (transport : Nat → TransportResult)
    (maxRetries attempt remaining : Nat) (msg : String)
    (h : transport attempt = TransportResult.raised msg)
    (hc : isRetryableError msg = true) (hlt : attempt < maxRetries) :
    retryLoop transport maxRetries attempt (remaining + 1) =
      { attempts := (retryLoop transport maxRetries (attempt + 1) remaining).attempts + 1,
        waits := attempt * 2 :: (retryLoop transport maxRetries (attempt + 1) remaining).waits,
        success := (retryLoop transport maxRetries (attempt + 1) remaining).success,
        error := (retryLoop transport maxRetries (attempt + 1) remaining).error } := by
  conv_lhs => rw [retryLoop]
  simp [h, hc, hlt]

/-- Helper for C5: from any loop state `(attempt, remaining)` consistent with
the loop bounds, an always-retryable-raising transport makes `remaining` more
attempts with backoff sleeps `attempt*2, (attempt+1)*2, …` and then fails
with the last raised message. -/
theorem retryLoop_always_retryable (transport : Nat → TransportResult)
    (maxRetries : Nat) (msg : String)
    (hr : isRetryableError msg = true)
    (htrans : ∀ a, transport a = TransportResult.raised msg) :
    ∀ remaining attempt, attempt + remaining = maxRetries + 1 → 1 ≤ remaining →
      retryLoop transport maxRetries attempt remaining =
        { attempts := remaining,
          waits := (List.range' attempt (remaining - 1)).map (· * 2),
          success := false, error := some msg } := by
  intro remaining
  induction remaining with
  | zero => intro attempt _ h; exact absurd h (by omega)
  | succ k ih =>
    intro attempt hsum _
    cases k with
    | zero =>
      have hnl : ¬ (attempt < maxRetries) := by omega
      simp [retryLoop, htrans, hr, hnl]
    | succ j =>
      have hlt : attempt < maxRetries := by omega
      have hrec := ih (attempt + 1) (by omega) (by omega)
      rw [retryLoop_raised_step transport maxRetries attempt (j + 1) msg
        (htrans attempt) hr hlt, hrec]
      simp [List.range'_succ]

/-- C5: a transport that raises a retryable error on every attempt is tried
exactly `maxRetries` times, with a wait of `k * 2` seconds before attempt
`k + 1` (so the wait list is `[2, 4, …, (maxRetries-1)*2]`), and the wrapper
then returns failure. -/
theorem retry_exhaustion (transport : Nat → TransportResult)
    (maxRetries : Nat) (msg : String)
    (hmax : 1 ≤ maxRetries)
    (hr : isRetryableError msg = true)
    (htrans : ∀ a, transport a = TransportResult.raised msg) :
    send_email_with_retry transport maxRetries =
      { attempts := maxRetries,
        waits := (List.range' 1 (maxRetries - 1)).map (· * 2),
        success := false, error := some msg } := by
  unfold send_email_with_retry
  exact retryLoop_always_retryable transport maxRetries msg hr htrans
    maxRetries 1 (by omega) (by omega)

/-- Witness for C5: a perpetual "connection timeout" error with the default
`SMTP_RETRY_ATTEMPTS = 3` gives exactly 3 attempts, waits of 2 s and 4 s,
and a failure result. -/
theorem retry_exhaustion_witness :
    send_email_with_retry (fun _ => TransportResult.raised "connection timeout") 3 =
      { attempts := 3, waits := [2, 4], success := false,
        error := some "connection timeout" } := by
  have h := retry_exhaustion (fun _ => TransportResult.raised "connection timeout")
    3 "connection timeout" (by decide) (by decide) (fun _ => rfl)
  simpa using h

/-! ### Send pipeline outcome policy (`send_scheduled_email`, lines 400–432) -/

/-- Result of one recipient's `send_email_with_retry` call inside
`send_all_emails`: the recipient address and the returned
`(success, error_msg)` pair. -/
structure RecipientOutcome where
  recipient : String
  success : Bool
  errMsg : Option String
deriving DecidableEq, Repr

/-- The failure line appended to `error_messages` for one failed recipient:
`f"Error sending to ..."` with the fallback text `Unknown error` when the
message is `None` or empty
(Python `or` falls back on `None` and on the empty string). -/
def failureText (o : RecipientOutcome) : String :=
  "Error sending to " ++ o.recipient ++ ": " ++
    (match o.errMsg with
      | some m => if m = "" then "Unknown error" else m
      | none => "Unknown error")

/-- The `error_messages` list accumulated over the recipient loop, in order. -/
def failureTexts (outcomes : List RecipientOutcome) : List String :=
  (outcomes.filter (fun o => o.success = false)).map failureText

/-- The `success_count` accumulated over the recipient loop. -/
def successCount (outcomes : List RecipientOutcome) : Nat :=
  (outcomes.filter (fun o => o.success = true)).length

/-- Python `"; ".join(...)`. -/
def joinSemicolon (l : List String) : String := String.intercalate "; " l

/-- Python slicing `s[:n]` by characters. -/
def truncateStr (s : String) (n : Nat) : String := String.mk (s.data.take n)

/-- The status-update block of `send_scheduled_email` (email_scheduler.py
lines 400–432): at least one success marks the row `sent` with `sent_at = now`
and, when failures exist, the semicolon-joined failure texts truncated to
1000 characters in `error_message`; zero successes mark the row `failed` with
the combined error text (or a fixed fallback) truncated to 1000 characters. -/
def updateAfterSend (e : ScheduledEmailRow) (outcomes : List RecipientOutcome)
    (now : Int) : ScheduledEmailRow :=
  if 0 < successCount outcomes then
    { e with
      status := EmailStatus.sent
      sent_at := some now
      error_message :=
        if (failureTexts outcomes).isEmpty then e.error_message
        else some (truncateStr (joinSemicolon (failureTexts outcomes)) 1000) }
  else
    { e with
      status := EmailStatus.failed
      error_message :=
        some (truncateStr
          (if (failureTexts outcomes).isEmpty then "Failed to send all emails"
            else joinSemicolon (failureTexts outcomes)) 1000) }

/-- C3: with at least one successful recipient the row ends `sent` with
`sent_at` set and any failures concatenated (semicolon-joined, truncated to
1000 characters) into `error_message`; with every recipient failing the row
ends `failed` carrying the combined error text. -/
theorem partial_success_policy (e : ScheduledEmailRow)
    (outcomes : List RecipientOutcome) (now : Int) (hne : outcomes ≠ []) :
    ((∃ o ∈ outcomes, o.success = true) →
      (updateAfterSend e outcomes now).status = EmailStatus.sent ∧
      (updateAfterSend e outcomes now).sent_at = some now ∧
      (failureTexts outcomes ≠ [] →
        (updateAfterSend e outcomes now).error_message =
          some (truncateStr (joinSemicolon (failureTexts outcomes)) 1000))) ∧
    ((∀ o ∈ outcomes, o.success = false) →
      (updateAfterSend e outcomes now).status = EmailStatus.failed ∧
      (updateAfterSend e outcomes now).error_message =
        some (truncateStr (joinSemicolon (failureTexts outcomes)) 1000)) := by
  constructor
  · rintro ⟨o, ho, hsucc⟩
    have hmem : o ∈ outcomes.filter (fun o => o.success = true) :=
      List.mem_filter.mpr ⟨ho, by simp [hsucc]⟩
    have hpos : 0 < successCount outcomes :=
      List.length_pos.mpr (List.ne_nil_of_mem hmem)
    refine ⟨?_, ?_, ?_⟩
    · simp [updateAfterSend, hpos]
    · simp [updateAfterSend, hpos]
    · intro hfail
      simp [updateAfterSend, hpos, hfail]
  · intro hall
    have hzero : successCount outcomes = 0 := by
      unfold successCount
      simp only [List.length_eq_zero, List.filter_eq_nil_iff]
      intro a ha
      simp [hall a ha]
    have hfail : ¬ (failureTexts outcomes).isEmpty := by
      obtain ⟨o, rest, rfl⟩ : ∃ o rest, outcomes = o :: rest := by
        cases outcomes with
        | nil => exact absurd rfl hne
        | cons o rest => exact ⟨o, rest, rfl⟩
      have h1 : o.success = false := hall o (by simp)
      have : failureText o ∈ failureTexts (o :: rest) := by
        unfold failureTexts
        exact List.mem_map_of_mem _ (List.mem_filter.mpr ⟨by simp, by simp [h1]⟩)
      simpa [List.isEmpty_iff] using List.ne_nil_of_mem this
    constructor
    · simp [updateAfterSend, hzero]
    · simp [updateAfterSend, hzero, hfail]

/-- The two-recipient outcome of P4: recipient A succeeds, recipient B fails. -/
def partialOutcomes : List RecipientOutcome :=
  [{ recipient := "a@x.com", success := true, errMsg := none },
   { recipient := "b@x.com", success := false, errMsg := some "SMTP error 550" }]

/-- Witness for C3: with one success and one failure the row is `sent`,
`sent_at` is set and the failure text for the failed recipient is recorded. -/
theorem partial_success_policy_witness :
    (updateAfterSend sampleRecurringRow partialOutcomes 5000).status = EmailStatus.sent ∧
    (updateAfterSend sampleRecurringRow partialOutcomes 5000).sent_at = some 5000 ∧
    (updateAfterSend sampleRecurringRow partialOutcomes 5000).error_message =
      some (truncateStr (joinSemicolon (failureTexts partialOutcomes)) 1000) := by
  have h := (partial_success_policy sampleRecurringRow partialOutcomes 5000
    (by decide)).1 ⟨{ recipient := "a@x.com", success := true, errMsg := none },
      by simp [partialOutcomes], rfl⟩
  exact ⟨h.1, h.2.1, h.2.2 (by decide)⟩

/-! ### Template variable replacement
(`replace_variables_in_text`, email_template_utils.py 250–276) -/

/-- Python regex `\w` (ASCII range, as used on template identifiers). -/
def isWordChar (c : Char) : Bool := c.isAlphanum || c = '_'

/-- Lookup `variables.get(var_name, "")` followed by `str(value) if value is not
None else ""`: the variables dict maps names to strings, absent names give
the empty string. -/
def varLookup (vars : List (String × String)) (name : String) : String :=
  match vars.find? (fun p => p.1 = name) with
  | some p => p.2
  | none => ""

/-- Attempt of the regex `\{\{(\w+)\}\}` to match right after a `{{` prefix:
a nonempty maximal word-character run followed immediately by `}}` yields the
captured identifier and the text after the match. -/
def placeholderSplit (rest : List Char) : Option (List Char × List Char) :=
  match rest.takeWhile isWordChar, rest.dropWhile isWordChar with
  | a :: run, '\x7d' :: '\x7d' :: tail => some (a :: run, tail)
  | _, _ => none


/-- Soundness of `placeholderSplit`: a successful split decomposes the input
as a nonempty all-word identifier followed by `}}` and the remainder. -/
theorem placeholderSplit_sound (rest run tail : List Char)
    (h : placeholderSplit rest = some (run, tail)) :
    run ≠ [] ∧ (∀ c ∈ run, isWordChar c = true) ∧
      rest = run ++ '\x7d' :: '\x7d' :: tail := by
  unfold placeholderSplit at h
  split at h
  case _ a run' tail' htw hdw =>
    injection h with h3
    obtain ⟨rfl, rfl⟩ := Prod.mk.injEq .. ▸ h3
    refine ⟨by simp, ?_, ?_⟩
    · intro c hc
      exact List.mem_takeWhile_imp (htw ▸ hc)
    · conv_lhs => rw [← List.takeWhile_append_dropWhile isWordChar rest]
      rw [htw, hdw]
  · exact absurd h (by simp)

/-- Completeness of `placeholderSplit`: a nonempty all-word identifier
followed by `}}` is recognised. -/
theorem placeholderSplit_complete (w tail : List Char) (hne : w ≠ [])
    (hw : ∀ c ∈ w, isWordChar c = true) :
    placeholderSplit (w ++ '\x7d' :: '\x7d' :: tail) = some (w, tail) := by
  have htw : (w ++ '\x7d' :: '\x7d' :: tail).takeWhile isWordChar = w := by
    rw [List.takeWhile_append_of_pos hw]
    simp [List.takeWhile_cons, isWordChar]
  have hdw : (w ++ '\x7d' :: '\x7d' :: tail).dropWhile isWordChar = '\x7d' :: '\x7d' :: tail := by
    rw [List.dropWhile_append_of_pos hw]
    simp [List.dropWhile_cons, isWordChar]
  obtain ⟨a, w', rfl⟩ : ∃ a w', w = a :: w' := by
    cases w with
    | nil => exact absurd rfl hne
    | cons a w' => exact ⟨a, w', rfl⟩
  unfold placeholderSplit
  rw [htw, hdw]
  rfl

/-- The single left-to-right pass of `re.sub` with pattern `\{\{(\w+)\}\}`
over the text: at each position, a `{{` followed by a nonempty word run and `}}` is
replaced by the looked-up value and scanning resumes after the match
(replacement text is not rescanned); otherwise one character is copied and
scanning advances one position.  `fuel` bounds the recursion; every call site
passes at least the length of the scanned list, which
`replaceVarsFuel_congr` shows is always enough. -/
def replaceVarsFuel (vars : List (String × String)) : Nat → List Char → List Char
  | 0, l => l
  | _ + 1, [] => []
  | fuel + 1, c :: rest =>
    if c = '\x7b' ∧ rest.head? = some '\x7b' then
      match placeholderSplit rest.tail with
      | some (run, tail) =>
        (varLookup vars (String.mk run)).data ++ replaceVarsFuel vars fuel tail
      | none => c :: replaceVarsFuel vars fuel rest
    else c :: replaceVarsFuel vars fuel rest

/-- Function `replace_variables_in_text(text, variables)`. -/
def replace_variables_in_text (text : String) (vars : List (String × String)) :
    String :=
  String.mk (replaceVarsFuel vars text.data.length text.data)

/-- Any two sufficient fuel values give the same scan result. -/
theorem replaceVarsFuel_congr (vars : List (String × String)) :
    ∀ fuel1 fuel2 l, l.length ≤ fuel1 → l.length ≤ fuel2 →
      replaceVarsFuel vars fuel1 l = replaceVarsFuel vars fuel2 l := by
  intro fuel1
  induction fuel1 with
  | zero =>
    intro fuel2 l h1 _
    have : l = [] := List.eq_nil_of_length_eq_zero (by omega)
    subst this
    cases fuel2 <;> simp [replaceVarsFuel]
  | succ f ih =>
    intro fuel2 l h1 h2
    cases fuel2 with
    | zero =>
      have : l = [] := List.eq_nil_of_length_eq_zero (by omega)
      subst this
      simp [replaceVarsFuel]
    | succ g =>
      cases l with
      | nil => simp [replaceVarsFuel]
      | cons c rest =>
        simp only [List.length_cons] at h1 h2
        rw [replaceVarsFuel, replaceVarsFuel]
        by_cases hb : c = '\x7b' ∧ rest.head? = some '\x7b'
        · rw [if_pos hb, if_pos hb]
          cases hps : placeholderSplit rest.tail with
          | none =>
            simp only [hps]
            rw [ih g rest (by omega) (by omega)]
          | some pair =>
            obtain ⟨run, tail⟩ := pair
            have hspec := placeholderSplit_sound rest.tail run tail hps
            have htl : rest.tail.length ≤ rest.length := by
              cases rest <;> simp
            have hlen : tail.length + 2 ≤ rest.tail.length := by
              rw [hspec.2.2]
              simp only [List.length_append, List.length_cons]
              omega
            simp only [hps]
            rw [ih g tail (by omega) (by omega)]
        · rw [if_neg hb, if_neg hb, ih g rest (by omega) (by omega)]

/-- General single-placeholder step: a text beginning with `{{identifier}}`
(identifier nonempty, all word characters) is rewritten to the looked-up
value — the empty string when the identifier is absent from the context —
followed by the scan of the remaining text. -/
theorem replaceVars_substitutes (vars : List (String × String))
    (w tail : List Char) (hne : w ≠ [])
    (hw : ∀ c ∈ w, isWordChar c = true) :
    replaceVarsFuel vars ('\x7b' :: '\x7b' :: (w ++ '\x7d' :: '\x7d' :: tail)).length
        ('\x7b' :: '\x7b' :: (w ++ '\x7d' :: '\x7d' :: tail)) =
      (varLookup vars (String.mk w)).data ++
        replaceVarsFuel vars tail.length tail := by
  simp only [List.length_cons]
  rw [replaceVarsFuel]
  rw [if_pos (by simp)]
  simp only [List.tail_cons]
  rw [placeholderSplit_complete w tail hne hw]
  have hfuel : replaceVarsFuel vars ((w ++ '\x7d' :: '\x7d' :: tail).length + 1) tail =
      replaceVarsFuel vars tail.length tail := by
    apply replaceVarsFuel_congr
    · simp only [List.length_append, List.length_cons]
      omega
    · exact le_refl _
  rw [← hfuel]

/-- The search `re.search` for pattern `\{\{(\w+)\}\}` as a boolean: does the text contain a
`{{identifier}}` placeholder anywhere? -/
def hasPlaceholderFuel : Nat → List Char → Bool
  | 0, _ => false
  | _ + 1, [] => false
  | fuel + 1, c :: rest =>
    if c = '\x7b' ∧ rest.head? = some '\x7b' then
      match placeholderSplit rest.tail with
      | some _ => true
      | none => hasPlaceholderFuel fuel rest
    else hasPlaceholderFuel fuel rest

/-- Whether a string still contains a `{{identifier}}` placeholder. -/
def hasPlaceholder (s : String) : Bool := hasPlaceholderFuel s.data.length s.data

/-- C6 counterexample: the claim that the output of variable replacement
contains no remaining `{{identifier}}` placeholder fails, because `re.sub`
makes one pass without rescanning: the template text `{{x{{y}}}}` under the
empty context rewrites to `{{x}}` — the inner placeholder `{{y}}` resolves to
the empty string and the surrounding characters join into a fresh
placeholder that survives in the output. -/
theorem replace_variables_leftover_placeholder :
    replace_variables_in_text "\x7b\x7bx\x7b\x7by\x7d\x7d\x7d\x7d" [] =
        "\x7b\x7bx\x7d\x7d" ∧
    hasPlaceholder "\x7b\x7bx\x7d\x7d" = true := by
  constructor
  · decide
  · decide

/-- C6 (amended): variable replacement makes a single left-to-right pass in
which every matched `{{identifier}}` placeholder (identifier: one or more
word characters) is substituted with the context value for that identifier —
the empty string when the identifier is absent, never an error — and
replacement text is not rescanned, so placeholders of the original text never
survive although substitution boundaries may form new ones; in particular the
body `Hello {{client_name}}, due {{scheduled_date}}` with
`client_name = Acme` and `scheduled_date = 2025-01-10` renders to exactly
`Hello Acme, due 2025-01-10` with no placeholder remaining, and an unknown
`{{unknown_key}}` resolves to the empty string. -/
theorem template_variable_replacement (vars : List (String × String))
    (w tail : List Char) (hne : w ≠ [])
    (hw : ∀ c ∈ w, isWordChar c = true) :
    (replaceVarsFuel vars
        ('\x7b' :: '\x7b' :: (w ++ '\x7d' :: '\x7d' :: tail)).length
        ('\x7b' :: '\x7b' :: (w ++ '\x7d' :: '\x7d' :: tail)) =
      (varLookup vars (String.mk w)).data ++
        replaceVarsFuel vars tail.length tail) ∧
    replace_variables_in_text
        "Hello \x7b\x7bclient_name\x7d\x7d, due \x7b\x7bscheduled_date\x7d\x7d"
        [("client_name", "Acme"), ("scheduled_date", "2025-01-10")] =
      "Hello Acme, due 2025-01-10" ∧
    hasPlaceholder "Hello Acme, due 2025-01-10" = false ∧
    replace_variables_in_text "\x7b\x7bunknown_key\x7d\x7d"
        [("client_name", "Acme")] = "" := by
  refine ⟨replaceVars_substitutes vars w tail hne hw, ?_, ?_, ?_⟩
  · decide
  · decide
  · decide

/-- Witness for C6 (amended): the general substitution step applied to the
identifier `name` with a one-entry context. -/
theorem template_variable_replacement_witness :
    (replaceVarsFuel [("name", "Acme")]
        ('\x7b' :: '\x7b' :: (['n', 'a', 'm', 'e'] ++ '\x7d' :: '\x7d' :: [])).length
        ('\x7b' :: '\x7b' :: (['n', 'a', 'm', 'e'] ++ '\x7d' :: '\x7d' :: [])) =
      (varLookup [("name", "Acme")] (String.mk ['n', 'a', 'm', 'e'])).data ++
        replaceVarsFuel [("name", "Acme")] ([] : List Char).length []) ∧
    replace_variables_in_text
        "Hello \x7b\x7bclient_name\x7d\x7d, due \x7b\x7bscheduled_date\x7d\x7d"
        [("client_name", "Acme"), ("scheduled_date", "2025-01-10")] =
      "Hello Acme, due 2025-01-10" ∧
    hasPlaceholder "Hello Acme, due 2025-01-10" = false ∧
    replace_variables_in_text "\x7b\x7bunknown_key\x7d\x7d"
        [("client_name", "Acme")] = "" :=
  template_variable_replacement [("name", "Acme")] ['n', 'a', 'm', 'e'] []
    (by decide) (by decide)

/-! ### HTML wrapping (`wrap_email_in_html_template`,
email_template_utils.py 164–247) -/

/-- One character class of the regex `<[a-z][\s\S]*>` with `re.IGNORECASE`:
an ASCII letter. -/
def isAsciiLetter (c : Char) : Bool :=
  (('a' ≤ c : Bool) && (c ≤ 'z' : Bool)) || (('A' ≤ c : Bool) && (c ≤ 'Z' : Bool))

/-- The search `re.search` for pattern `<[a-z][\s\S]*>` with `re.IGNORECASE` as a boolean:
some `<` is followed by an ASCII letter and, at least one position later, a
`>`. -/
def hasHtmlTagAux : List Char → Bool
  | c :: c2 :: rest =>
    (c = '<' && isAsciiLetter c2 && rest.any (fun x => x = '>')) ||
      hasHtmlTagAux (c2 :: rest)
  | _ => false

/-- The `has_html` check of `wrap_email_in_html_template`. -/
def hasHtmlTag (s : String) : Bool := hasHtmlTagAux s.data

/-- Python `html.escape` on one character (ampersand, angle brackets, double
quote and single quote become entities; everything else is kept). -/
def escapeChar (c : Char) : List Char :=
  if c = '&' then "&amp;".data
  else if c = '<' then "&lt;".data
  else if c = '>' then "&gt;".data
  else if c = '"' then "&quot;".data
  else if c = '\x27' then "&#x27;".data
  else [c]

/-- Python `html.escape(line)` (quote mode on, the default). -/
def htmlEscape (s : String) : String :=
  String.mk (s.data.foldr (fun c acc => escapeChar c ++ acc) [])

/-- Python `str.strip()` behaviour: whitespace removed from both ends. -/
def stripChars (l : List Char) : List Char :=
  ((l.dropWhile Char.isWhitespace).reverse.dropWhile Char.isWhitespace).reverse

/-- Python split of a string on the newline character. -/
def splitLines : List Char → List (List Char)
  | [] => [[]]
  | c :: rest =>
    match splitLines rest with
    | [] => [[c]]
    | l :: ls => if c = '\n' then [] :: l :: ls else (c :: l) :: ls

/-- The comprehension `[line.strip() for line in body_content.split(newline) if line.strip()]`. -/
def pyLines (s : String) : List String :=
  ((splitLines s.data).map (fun l => String.mk (stripChars l))).filter
    (fun l => l ≠ "")

/-- Python string join with the empty separator. -/
def concatStrings (l : List String) : String := l.foldr (· ++ ·) ""

/-- The fixed `<p style=...>` opening tag used for plain-text paragraphs. -/
def pStyleOpen : String :=
  "<p style=\"margin: 0 0 16px 0; line-height: 1.6; color: #333333;\">"

/-- The plain-text branch of `wrap_email_in_html_template`: each non-empty
stripped line is HTML-escaped and wrapped in a styled paragraph; no lines
give one empty paragraph. -/
def plainParagraphs (bodyContent : String) : String :=
  let lines := pyLines bodyContent
  if lines.isEmpty then pStyleOpen ++ "</p>"
  else concatStrings (lines.map (fun line => pStyleOpen ++ htmlEscape line ++ "</p>"))

/-- Literal segment of the HTML e-mail shell built by
`wrap_email_in_html_template` (email_template_utils.py 203–245). -/
def htmlShellPart1 : String :=
  "<!DOCTYPE html>\n<html lang=\"en\">\n<head>\n  <meta charset=\"UTF-8\">\n  <meta name=\"viewport\" content=\"width=device-width, initial-scale=1.0\">\n  <title>Email</title>\n</head>\n<body style=\"margin: 0; padding: 0; font-family: -apple-system, BlinkMacSystemFont, \x27Segoe UI\x27, Roboto, \x27Helvetica Neue\x27, Arial, sans-serif; background-color: #f5f5f5; line-height: 1.6;\">\n  <table role=\"presentation\" cellspacing=\"0\" cellpadding=\"0\" border=\"0\" width=\"100%\" style=\"background-color: #f5f5f5; padding: 40px 0;\">\n    <tr>\n      <td align=\"center\" style=\"padding: 0;\">\n        <table role=\"presentation\" cellspacing=\"0\" cellpadding=\"0\" border=\"0\" width=\"600\" style=\"max-width: 600px; background-color: #ffffff; border-radius: 8px; box-shadow: 0 2px 4px rgba(0,0,0,0.1);\">\n          <tr>\n            <td style=\"padding: 40px 40px 30px 40px; background-color: #ffffff; border-radius: 8px 8px 0 0;\">\n              <div style=\"text-align: center;\">\n                <h1 style=\"margin: 0; font-size: 24px; font-weight: 600; color: #1a1a1a; letter-spacing: -0.5px;\">"

/-- Literal segment of the HTML e-mail shell built by
`wrap_email_in_html_template` (email_template_utils.py 203–245). -/
def htmlShellPart2 : String :=
  "</h1>\n              </div>\n            </td>\n          </tr>\n          <tr>\n            <td style=\"padding: 0 40px 40px 40px; background-color: #ffffff;\">\n              <div style=\"color: #333333; font-size: 16px; line-height: 1.6;\">\n                "

/-- Literal segment of the HTML e-mail shell built by
`wrap_email_in_html_template` (email_template_utils.py 203–245). -/
def htmlShellPart3 : String :=
  "\n              </div>\n            </td>\n          </tr>\n          <tr>\n            <td style=\"padding: 30px 40px; background-color: #f9f9f9; border-radius: 0 0 8px 8px; border-top: 1px solid #e5e5e5;\">\n              <div style=\"text-align: center; color: #666666; font-size: 14px; line-height: 1.5;\">\n                <p style=\"margin: 0 0 8px 0;\">Best regards,</p>\n                <p style=\"margin: 0; font-weight: 500; color: #333333;\">"

/-- Literal segment of the HTML e-mail shell built by
`wrap_email_in_html_template` (email_template_utils.py 203–245). -/
def htmlShellPart4 : String :=
  "</p>\n                <p style=\"margin: 12px 0 0 0; font-size: 12px; color: #999999;\">\n                  This is an automated email. Please do not reply directly to this message.\n                </p>\n              </div>\n            </td>\n          </tr>\n        </table>\n      </td>\n    </tr>\n  </table>\n</body>\n</html>"

/-- Function `wrap_email_in_html_template(body_content, organization_name)`: bodies
already containing an HTML tag are embedded verbatim; plain-text bodies go
through `plainParagraphs`; either way the result is spliced into the branded
shell whose header and footer carry the HTML-escaped organization name. -/
def wrap_email_in_html_template (bodyContent : String)
    (organizationName : String) : String :=
  let formatted :=
    if hasHtmlTag bodyContent then bodyContent else plainParagraphs bodyContent
  htmlShellPart1 ++ htmlEscape organizationName ++ htmlShellPart2 ++ formatted ++
    htmlShellPart3 ++ htmlEscape organizationName ++ htmlShellPart4

/-- Every member of a string-map produces an infix of the concatenation. -/
theorem concatStrings_map_infix (f : String → String) :
    ∀ (l : List String) (x : String), x ∈ l →
      ∃ pre post, concatStrings (l.map f) = pre ++ f x ++ post := by
  intro l
  induction l with
  | nil => intro x hx; exact absurd hx (by simp)
  | cons y ys ih =>
    intro x hx
    rcases List.mem_cons.mp hx with rfl | hmem
    · exact ⟨"", concatStrings (ys.map f), rfl⟩
    · obtain ⟨pre, post, hpp⟩ := ih x hmem
      refine ⟨f y ++ pre, post, ?_⟩
      have hstep : concatStrings ((y :: ys).map f) =
          f y ++ concatStrings (ys.map f) := rfl
      rw [hstep, hpp, ← String.append_assoc, ← String.append_assoc]

/-- C7: HTML escaping happens only on the plain-text path.  A body already
containing an HTML tag is embedded verbatim (unescaped) in the shell's
content region; a body without HTML tags is split into its non-empty
stripped lines, each HTML-escaped inside a styled paragraph appearing in the
output.  Concretely, a plain-text body mentioning the word `script` (without
tags) is escaped — its ampersand becomes `&amp;` — while a `<p>...</p>` body
passes through with its ampersand intact. -/
theorem html_wrap_escape_policy (body org : String) :
    (hasHtmlTag body = true →
      wrap_email_in_html_template body org =
        htmlShellPart1 ++ htmlEscape org ++ htmlShellPart2 ++ body ++
          htmlShellPart3 ++ htmlEscape org ++ htmlShellPart4) ∧
    (hasHtmlTag body = false →
      wrap_email_in_html_template body org =
        htmlShellPart1 ++ htmlEscape org ++ htmlShellPart2 ++
          plainParagraphs body ++
          htmlShellPart3 ++ htmlEscape org ++ htmlShellPart4 ∧
      ∀ line ∈ pyLines body, ∃ pre post,
        wrap_email_in_html_template body org =
          pre ++ (pStyleOpen ++ htmlEscape line ++ "</p>") ++ post) ∧
    hasHtmlTag "Please run the script as discussed & report" = false ∧
    htmlEscape "Please run the script as discussed & report" =
      "Please run the script as discussed &amp; report" ∧
    hasHtmlTag "<p>Hello team & clients</p>" = true := by
  refine ⟨?_, ?_, by decide, by decide, by decide⟩
  · intro h
    unfold wrap_email_in_html_template
    rw [h]
    simp
  · intro h
    have hmain : wrap_email_in_html_template body org =
        htmlShellPart1 ++ htmlEscape org ++ htmlShellPart2 ++
          plainParagraphs body ++
          htmlShellPart3 ++ htmlEscape org ++ htmlShellPart4 := by
      unfold wrap_email_in_html_template
      rw [h]
      simp
    refine ⟨hmain, ?_⟩
    intro line hline
    have hlines : (pyLines body).isEmpty = false := by
      rcases hEmpty : pyLines body with _ | ⟨a, as⟩
      · rw [hEmpty] at hline
        simp at hline
      · simp
    have hpara : plainParagraphs body =
        concatStrings ((pyLines body).map
          (fun l => pStyleOpen ++ htmlEscape l ++ "</p>")) := by
      unfold plainParagraphs
      dsimp only
      rw [hlines]
      simp
    obtain ⟨pre, post, hpp⟩ :=
      concatStrings_map_infix (fun l => pStyleOpen ++ htmlEscape l ++ "</p>")
        (pyLines body) line hline
    refine ⟨htmlShellPart1 ++ htmlEscape org ++ htmlShellPart2 ++ pre,
      post ++ htmlShellPart3 ++ htmlEscape org ++ htmlShellPart4, ?_⟩
    rw [hmain, hpara, hpp]
    simp only [String.append_assoc]

/-- Witness for C7: an HTML body is embedded verbatim, a plain-text body goes
through the escaped-paragraph path. -/
theorem html_wrap_escape_policy_witness :
    wrap_email_in_html_template "<p>Hello team & clients</p>" "Acme Org" =
      htmlShellPart1 ++ htmlEscape "Acme Org" ++ htmlShellPart2 ++
        "<p>Hello team & clients</p>" ++
        htmlShellPart3 ++ htmlEscape "Acme Org" ++ htmlShellPart4 ∧
    wrap_email_in_html_template
        "Please run the script as discussed & report" "Acme Org" =
      htmlShellPart1 ++ htmlEscape "Acme Org" ++ htmlShellPart2 ++
        plainParagraphs "Please run the script as discussed & report" ++
        htmlShellPart3 ++ htmlEscape "Acme Org" ++ htmlShellPart4 :=
  ⟨(html_wrap_escape_policy "<p>Hello team & clients</p>" "Acme Org").1 (by decide),
   ((html_wrap_escape_policy "Please run the script as discussed & report"
      "Acme Org").2.1 (by decide)).1⟩

/-! ### Client email configuration (api/v1/client/email_config.py) -/

/-- The `EmailTemplateConfig` pydantic schema: one recipient address with its
subscribed template ids. -/
structure EmailTemplateConfig where
  email : String
  selectedTemplates : List Nat
deriving DecidableEq, Repr

/-- The `ServiceConfig` pydantic schema.  The `dateType` and `scheduledTimes`
field validators (values among `single`/`range`/`all`, times parsing as
`HH:mm`) run before the endpoint body, so times are already modelled as
minute offsets. -/
structure ServiceConfig where
  enabled : Bool
  templateId : Nat
  templateName : String
  dateType : String
  scheduledDate : Option Int
  scheduledDateFrom : Option Int
  scheduledDateTo : Option Int
  scheduledTimes : List TimeOfDay
deriving DecidableEq, Repr

/-- The `EmailConfigRequest` pydantic schema; the Python dicts keep insertion
order, so they are embedded as association lists. -/
structure EmailConfigRequest where
  emails : List String
  emailTemplates : List (String × EmailTemplateConfig)
  services : List (String × ServiceConfig)
deriving DecidableEq, Repr

/-- The columns of `EmailTemplate` that validation reads: id and owning
organization (`none` = master/global template). -/
structure EmailTemplateRow where
  id : Nat
  org_id : Option Nat
deriving DecidableEq, Repr

/-- The per-service `service_errors` list built by `validate_email_config`
(email_config.py lines 190–222), in source order. -/
def serviceErrors (sc : ServiceConfig) (today : Int) : List String :=
  let dateErrors :=
    if sc.dateType = "single" then
      (match sc.scheduledDate with
        | none => ["scheduledDate is required for dateType \x27single\x27"]
        | some d =>
          if d < today then
            ["scheduledDate cannot be in the past (must be today or later)"]
          else []) ++
      (if sc.scheduledDateFrom.isSome || sc.scheduledDateTo.isSome then
        ["scheduledDateFrom and scheduledDateTo must be null for dateType \x27single\x27"]
      else [])
    else if sc.dateType = "range" then
      (match sc.scheduledDateFrom, sc.scheduledDateTo with
        | some f, some t =>
          if t ≤ f then ["scheduledDateTo must be after scheduledDateFrom"]
          else if f < today then
            ["scheduledDateFrom cannot be in the past (must be today or later)"]
          else []
        | _, _ =>
          ["scheduledDateFrom and scheduledDateTo are required for dateType \x27range\x27"]) ++
      (if sc.scheduledDate.isSome then
        ["scheduledDate must be null for dateType \x27range\x27"]
      else [])
    else if sc.dateType = "all" then
      if sc.scheduledDate.isSome || sc.scheduledDateFrom.isSome ||
          sc.scheduledDateTo.isSome then
        ["All date fields must be null for dateType \x27all\x27"]
      else []
    else []
  dateErrors ++
    (if sc.scheduledTimes.isEmpty then
      ["At least one scheduled time must be specified"]
    else [])

/-- The `all_template_ids` set of `validate_email_config` (recipient
subscriptions plus enabled services), as a deduplicated list. -/
def allTemplateIds (config : EmailConfigRequest) : List Nat :=
  ((config.emailTemplates.foldr
      (fun (p : String × EmailTemplateConfig) acc => p.2.selectedTemplates ++ acc)
      []) ++
    (config.services.filterMap
      (fun (p : String × ServiceConfig) =>
        if p.2.enabled then some p.2.templateId else none))).dedup

/-- The `invalid_templates` computation: ids not present in the template
table, or owned by a different organization (master templates with
`org_id IS NULL` are always allowed). -/
def invalidTemplateIds (allIds : List Nat) (templates : List EmailTemplateRow)
    (orgId : Nat) : List Nat :=
  allIds.filter (fun tid =>
    match templates.find? (fun t => t.id = tid) with
    | none => true
    | some t =>
      match t.org_id with
      | some o => o ≠ orgId
      | none => false)

/-- The `services.<service_id>` entries of the `errors` dict, in service
insertion order (only enabled services with a non-empty error list). -/
def serviceErrorEntries (services : List (String × ServiceConfig))
    (today : Int) : List (String × List String) :=
  services.foldr
    (fun p acc =>
      if p.2.enabled then
        let es := serviceErrors p.2 today
        if es.isEmpty then acc else ("services." ++ p.1, es) :: acc
      else acc) []

/-- Function `validate_email_config` (email_config.py lines 147–231): the `errors`
dict, keyed `templates` and `services.<service_id>`, in insertion order.
An empty result means the validation passed; a non-empty result is raised
as HTTP 422 before any database mutation. -/
def validate_email_config (config : EmailConfigRequest) (orgId : Nat)
    (templates : List EmailTemplateRow) (today : Int) :
    List (String × List String) :=
  let inv := invalidTemplateIds (allTemplateIds config) templates orgId
  let templateErrors :=
    if inv.isEmpty then ([] : List (String × List String))
    else [("templates",
      ["Template IDs not found or not accessible: " ++ toString inv])]
  templateErrors ++ serviceErrorEntries config.services today

/-- Recipient resolution of `create_scheduled_emails` (lines 245–248): the
addresses whose subscription list contains the template id. -/
def recipientsForTemplate (config : EmailConfigRequest) (templateId : Nat) :
    List String :=
  (config.emailTemplates.filter
    (fun p => templateId ∈ p.2.selectedTemplates)).map (fun p => p.1)

/-- The `while current_date <= scheduledDateTo` day enumeration. -/
def rangeDates (dfrom dto : Int) : List Int :=
  if dto < dfrom then []
  else (List.range (dto - dfrom + 1).toNat).map (fun k => dfrom + (k : Int))

/-- Function `create_scheduled_emails` (email_config.py lines 234–315).  New rows are
created pending; database-assigned primary keys are not modelled (`id := 0`).
The `single`/`range` branches read their date fields, which validation
guarantees are present for enabled services. -/
def create_scheduled_emails (config : EmailConfigRequest)
    (clientId templateId : Nat) (sc : ServiceConfig) (today : Int) :
    List ScheduledEmailRow :=
  let recipients := recipientsForTemplate config templateId
  if recipients.isEmpty then []
  else if sc.dateType = "single" then
    match sc.scheduledDate with
    | some d =>
      sc.scheduledTimes.map (fun t =>
        { id := 0, client_id := clientId, template_id := some templateId
          recipient_emails := recipients
          scheduled_date := d, scheduled_time := t
          scheduled_datetime := combineDT d t
          status := EmailStatus.pending, is_recurring := false
          recurrence_end_date := none, error_message := none, sent_at := none })
    | none => []
  else if sc.dateType = "range" then
    match sc.scheduledDateFrom, sc.scheduledDateTo with
    | some f, some dto =>
      (rangeDates f dto).foldr (fun d acc =>
        sc.scheduledTimes.map (fun t =>
          { id := 0, client_id := clientId, template_id := some templateId
            recipient_emails := recipients
            scheduled_date := d, scheduled_time := t
            scheduled_datetime := combineDT d t
            status := EmailStatus.pending, is_recurring := false
            recurrence_end_date := some dto, error_message := none
            sent_at := none }) ++ acc) []
    | _, _ => []
  else if sc.dateType = "all" then
    sc.scheduledTimes.map (fun t =>
      { id := 0, client_id := clientId, template_id := some templateId
        recipient_emails := recipients
        scheduled_date := today + 1, scheduled_time := t
        scheduled_datetime := combineDT (today + 1) t
        status := EmailStatus.pending, is_recurring := true
        recurrence_end_date := none, error_message := none, sent_at := none })
  else []

/-- The scheduled-email creation loop shared by the create and update
endpoints: expand every enabled service. -/
def expandEnabledServices (config : EmailConfigRequest) (clientId : Nat)
    (today : Int) : List ScheduledEmailRow :=
  config.services.foldr
    (fun p acc =>
      if p.2.enabled then
        create_scheduled_emails config clientId p.2.templateId p.2 today ++ acc
      else acc) []

/-- The database state the configuration endpoints touch. -/
structure DBState where
  scheduledEmails : List ScheduledEmailRow
  configs : List (Nat × EmailConfigRequest)
deriving DecidableEq, Repr

/-- Store or replace a client's configuration document. -/
def upsertConfig (configs : List (Nat × EmailConfigRequest)) (clientId : Nat)
    (config : EmailConfigRequest) : List (Nat × EmailConfigRequest) :=
  if (configs.find? (fun p => p.1 = clientId)).isSome then
    configs.map (fun p => if p.1 = clientId then (clientId, config) else p)
  else configs ++ [(clientId, config)]

/-- Function `update_email_config` (email_config.py lines 394–473): validate; on
failure raise 422 with the errors and persist nothing.  Otherwise, when a
configuration exists for the client, transition every pending
`ScheduledEmail` row of that client to `cancelled`; then write the new
configuration document and append the rows expanded from the new
configuration, all committed together. -/
def update_email_config (db : DBState) (clientId : Nat)
    (config : EmailConfigRequest) (orgId : Nat)
    (templates : List EmailTemplateRow) (today : Int) :
    Except (List (String × List String)) DBState :=
  let errors := validate_email_config config orgId templates today
  if errors.isEmpty then
    let hasConfig := (db.configs.find? (fun p => p.1 = clientId)).isSome
    let cancelled :=
      if hasConfig then
        db.scheduledEmails.map (fun r =>
          if r.client_id = clientId ∧ r.status = EmailStatus.pending then
            { r with status := EmailStatus.cancelled }
          else r)
      else db.scheduledEmails
    Except.ok
      { scheduledEmails := cancelled ++ expandEnabledServices config clientId today
        configs := upsertConfig db.configs clientId config }
  else Except.error errors

/-- Unfolding of `serviceErrorEntries` on a cons cell. -/
theorem serviceErrorEntries_cons (p : String × ServiceConfig)
    (ps : List (String × ServiceConfig)) (today : Int) :
    serviceErrorEntries (p :: ps) today =
      if p.2.enabled then
        if (serviceErrors p.2 today).isEmpty then serviceErrorEntries ps today
        else ("services." ++ p.1, serviceErrors p.2 today) ::
          serviceErrorEntries ps today
      else serviceErrorEntries ps today := rfl

/-- An enabled service with a non-empty error list contributes its keyed
entry to the validation errors. -/
theorem serviceErrorEntries_mem (today : Int) :
    ∀ (l : List (String × ServiceConfig)) (sid : String) (sc : ServiceConfig),
      (sid, sc) ∈ l → sc.enabled = true → serviceErrors sc today ≠ [] →
      ("services." ++ sid, serviceErrors sc today) ∈
        serviceErrorEntries l today := by
  intro l
  induction l with
  | nil => intro sid sc h _ _; exact absurd h (by simp)
  | cons p ps ih =>
    intro sid sc hmem hen hne
    have hempty : (serviceErrors sc today).isEmpty = false := by
      rcases hsc : serviceErrors sc today with _ | ⟨a, as⟩
      · exact absurd hsc hne
      · simp
    rcases List.mem_cons.mp hmem with heq | hmem2
    · have hp : p = (sid, sc) := heq.symm
      subst hp
      rw [serviceErrorEntries_cons]
      simp only [hen, if_true, hempty, Bool.false_eq_true, if_false]
      exact List.mem_cons_self _ _
    · have hrec := ih sid sc hmem2 hen hne
      rw [serviceErrorEntries_cons]
      split
      · split
        · exact hrec
        · exact List.mem_cons_of_mem _ hrec
      · exact hrec

/-- C8: for an enabled `single`-mode service, validation accepts
`scheduledDate = today` (no service errors) and rejects a `scheduledDate`
strictly before today, recording the rejection under the key
`services.<service_id>` of the validation errors; and the update operation
persists nothing unless validation returned no errors. -/
theorem validation_boundary (sid : String) (sc : ServiceConfig)
    (today d : Int) (hen : sc.enabled = true) (hm : sc.dateType = "single") :
    (sc.scheduledDate = some today → sc.scheduledDateFrom = none →
      sc.scheduledDateTo = none → sc.scheduledTimes ≠ [] →
      serviceErrors sc today = []) ∧
    (sc.scheduledDate = some d → d < today →
      "scheduledDate cannot be in the past (must be today or later)"
        ∈ serviceErrors sc today) ∧
    (∀ (config : EmailConfigRequest) (orgId : Nat)
        (templates : List EmailTemplateRow),
      (sid, sc) ∈ config.services → sc.scheduledDate = some d → d < today →
      ("services." ++ sid, serviceErrors sc today)
        ∈ validate_email_config config orgId templates today) ∧
    (∀ (db : DBState) (clientId orgId : Nat) (config : EmailConfigRequest)
        (templates : List EmailTemplateRow) (db' : DBState),
      update_email_config db clientId config orgId templates today =
        Except.ok db' →
      validate_email_config config orgId templates today = []) := by
  refine ⟨?_, ?_, ?_, ?_⟩
  · intro h1 h2 h3 h4
    simp [serviceErrors, hm, h1, h2, h3, h4]
  · intro h1 h2
    simp [serviceErrors, hm, h1, h2]
  · intro config orgId templates hmem h1 h2
    have hin : "scheduledDate cannot be in the past (must be today or later)"
        ∈ serviceErrors sc today := by
      simp [serviceErrors, hm, h1, h2]
    have hne : serviceErrors sc today ≠ [] := List.ne_nil_of_mem hin
    have hentry := serviceErrorEntries_mem today config.services sid sc hmem hen hne
    unfold validate_email_config
    exact List.mem_append.mpr (Or.inr hentry)
  · intro db clientId orgId config templates db' hok
    by_cases hv : validate_email_config config orgId templates today = []
    · exact hv
    · exfalso
      have hempty : (validate_email_config config orgId templates today).isEmpty
          = false := by
        rcases hval : validate_email_config config orgId templates today with
          _ | ⟨a, as⟩
        · exact absurd hval hv
        · simp
      unfold update_email_config at hok
      dsimp only at hok
      rw [hempty] at hok
      simp at hok

/-- An enabled `single` service scheduled for day 1000. -/
def singleServiceToday : ServiceConfig :=
  { enabled := true, templateId := 5, templateName := "GST Filing"
    dateType := "single", scheduledDate := some 1000
    scheduledDateFrom := none, scheduledDateTo := none
    scheduledTimes := [600] }

/-- The same service scheduled one day earlier. -/
def singleServicePast : ServiceConfig :=
  { singleServiceToday with scheduledDate := some 999 }

/-- A one-service configuration using `singleServicePast`. -/
def pastConfigRequest : EmailConfigRequest :=
  { emails := ["a@x.com"]
    emailTemplates :=
      [("a@x.com", { email := "a@x.com", selectedTemplates := [5] })]
    services := [("12", singleServicePast)] }

/-- Witness for C8: with `today = 1000`, date 1000 passes and date 999 is
rejected under `services.12`. -/
theorem validation_boundary_witness :
    serviceErrors singleServiceToday 1000 = [] ∧
    "scheduledDate cannot be in the past (must be today or later)"
      ∈ serviceErrors singleServicePast 1000 ∧
    ("services." ++ "12", serviceErrors singleServicePast 1000)
      ∈ validate_email_config pastConfigRequest 1
          [{ id := 5, org_id := some 1 }] 1000 :=
  ⟨(validation_boundary "12" singleServiceToday 1000 1000 rfl rfl).1
      rfl rfl rfl (by decide),
   (validation_boundary "12" singleServicePast 1000 999 rfl rfl).2.1
      rfl (by decide),
   (validation_boundary "12" singleServicePast 1000 999 rfl rfl).2.2.1
      pastConfigRequest 1 [{ id := 5, org_id := some 1 }]
      (by decide) rfl (by decide)⟩

/-- C9: a validation failure aborts the update with the errors and no new
state; a successful update of a client that already had a configuration
leaves no pending row of that client other than the rows expanded from the
new configuration — every previously pending row of the client appears
cancelled in the new state. -/
theorem config_replace_cancels_stale (db : DBState) (clientId orgId : Nat)
    (config : EmailConfigRequest) (templates : List EmailTemplateRow)
    (today : Int) :
    (validate_email_config config orgId templates today ≠ [] →
      update_email_config db clientId config orgId templates today =
        Except.error (validate_email_config config orgId templates today)) ∧
    (∀ db', update_email_config db clientId config orgId templates today =
        Except.ok db' →
      (db.configs.find? (fun p => p.1 = clientId)).isSome →
      (∀ r ∈ db.scheduledEmails,
        r.client_id = clientId → r.status = EmailStatus.pending →
        { r with status := EmailStatus.cancelled } ∈ db'.scheduledEmails) ∧
      (∀ r ∈ db'.scheduledEmails,
        r.client_id = clientId → r.status = EmailStatus.pending →
        r ∈ expandEnabledServices config clientId today)) := by
  constructor
  · intro hv
    have hempty : (validate_email_config config orgId templates today).isEmpty
        = false := by
      rcases hval : validate_email_config config orgId templates today with
        _ | ⟨a, as⟩
      · exact absurd hval hv
      · simp
    unfold update_email_config
    dsimp only
    rw [hempty]
    simp
  · intro db' hok hcfg
    have hempty : (validate_email_config config orgId templates today).isEmpty
        = true := by
      rcases hval : validate_email_config config orgId templates today with
        _ | ⟨a, as⟩
      · simp
      · exfalso
        unfold update_email_config at hok
        dsimp only at hok
        rw [hval] at hok
        simp at hok
    unfold update_email_config at hok
    dsimp only at hok
    rw [hempty, if_pos rfl, hcfg, if_pos rfl] at hok
    injection hok with hbig
    subst hbig
    constructor
    · intro r hr hcl hpend
      refine List.mem_append.mpr (Or.inl ?_)
      have hpt : (fun r =>
          if r.client_id = clientId ∧ r.status = EmailStatus.pending then
            { r with status := EmailStatus.cancelled }
          else r) r = { r with status := EmailStatus.cancelled } := by
        dsimp only
        rw [if_pos ⟨hcl, hpend⟩]
      exact hpt ▸ List.mem_map_of_mem _ hr
    · intro r hr hcl hpend
      rcases List.mem_append.mp hr with hold | hnew
      · exfalso
        obtain ⟨x, hx, hfx⟩ := List.mem_map.mp hold
        by_cases hcond : x.client_id = clientId ∧ x.status = EmailStatus.pending
        · rw [if_pos hcond] at hfx
          rw [← hfx] at hpend
          simp at hpend
        · rw [if_neg hcond] at hfx
          subst hfx
          exact hcond ⟨hcl, hpend⟩
      · exact hnew

/-- A pending row of client 1 created from the old configuration. -/
def pendingRow9 : ScheduledEmailRow :=
  { id := 42, client_id := 1, template_id := some 5
    recipient_emails := ["old@x.com"]
    scheduled_date := 900, scheduled_time := 600
    scheduled_datetime := combineDT 900 600
    status := EmailStatus.pending, is_recurring := false
    recurrence_end_date := none, error_message := none, sent_at := none }

/-- A valid replacement configuration (single service dated day 1000). -/
def newConfigRequest : EmailConfigRequest :=
  { emails := ["a@x.com"]
    emailTemplates :=
      [("a@x.com", { email := "a@x.com", selectedTemplates := [5] })]
    services := [("12", singleServiceToday)] }

/-- A database holding one pending row and one stored configuration for
client 1. -/
def dbBefore : DBState :=
  { scheduledEmails := [pendingRow9]
    configs := [(1, pastConfigRequest)] }

/-- The state after a successful configuration update for client 1. -/
def dbAfter : DBState :=
  (update_email_config dbBefore 1 newConfigRequest 1
    [{ id := 5, org_id := some 1 }] 1000).toOption.getD dbBefore

/-- Witness for C9: the update cancels the old pending row, every pending row
of the new state comes from the new configuration, and an invalid
configuration is rejected with its validation errors. -/
theorem config_replace_cancels_stale_witness :
    ({ pendingRow9 with status := EmailStatus.cancelled }
        ∈ dbAfter.scheduledEmails) ∧
    update_email_config dbBefore 1 pastConfigRequest 1
        [{ id := 5, org_id := some 1 }] 1000 =
      Except.error (validate_email_config pastConfigRequest 1
        [{ id := 5, org_id := some 1 }] 1000) := by
  constructor
  · exact (((config_replace_cancels_stale dbBefore 1 1 newConfigRequest
      [{ id := 5, org_id := some 1 }] 1000).2 dbAfter (by rfl)
      (by decide)).1 pendingRow9 (by decide) rfl rfl)
  · exact (config_replace_cancels_stale dbBefore 1 1 pastConfigRequest
      [{ id := 5, org_id := some 1 }] 1000).1 (by decide)

/-! ### Individual scheduled-email mutations (email_config.py 682–684,
736–737, 1021–1041) -/

/-- The row update of `cancel_scheduled_email` (email_config.py lines
682–684): a pending row becomes cancelled; any other status is left alone. -/
def cancelRowUpdate (r : ScheduledEmailRow) : ScheduledEmailRow :=
  if r.status = EmailStatus.pending then { r with status := EmailStatus.cancelled }
  else r

/-- The row update of `retry_scheduled_email` (email_config.py lines
736–737), reached only for failed rows: back to pending with the error
cleared. -/
def retryRowUpdate (r : ScheduledEmailRow) : ScheduledEmailRow :=
  { r with status := EmailStatus.pending, error_message := none }

/-- The scheduled-email loop of `delete_email` (email_config.py lines
1021–1041): for every pending row of the client whose recipient list contains
the removed address, the address is removed from `recipient_emails`; a row
left with no recipients is cancelled instead.  All other rows are
untouched. -/
def delete_email_update_rows (rows : List ScheduledEmailRow)
    (clientId : Nat) (email : String) : List ScheduledEmailRow :=
  rows.map (fun r =>
    if r.client_id = clientId ∧ r.status = EmailStatus.pending ∧
        email ∈ r.recipient_emails then
      let updated := r.recipient_emails.filter (fun e => e ≠ email)
      if updated.isEmpty then { r with status := EmailStatus.cancelled }
      else { r with recipient_emails := updated }
    else r)

/-- A pending row of client 1 with two recipients. -/
def pendingRowAB : ScheduledEmailRow :=
  { id := 9, client_id := 1, template_id := some 5
    recipient_emails := ["a@x.com", "b@x.com"]
    scheduled_date := 900, scheduled_time := 600
    scheduled_datetime := combineDT 900 600
    status := EmailStatus.pending, is_recurring := false
    recurrence_end_date := none, error_message := none, sent_at := none }

/-- C10 counterexample: removing the address `a@x.com` from the client's
configuration rewrites the `recipient_emails` snapshot of an existing pending
row — `delete_email` mutates the list, so it is not immutable after
creation as claimed. -/
theorem delete_email_mutates_recipients :
    (delete_email_update_rows [pendingRowAB] 1 "a@x.com").map
        (fun r => r.recipient_emails) = [["b@x.com"]] ∧
    pendingRowAB.recipient_emails = ["a@x.com", "b@x.com"] := by
  constructor
  · decide
  · decide

/-- C10 (amended): the scheduler's status update and the explicit
cancel/retry operations write only `status`, `sent_at` and `error_message`,
leaving `recipient_emails` (and the schedule fields) unchanged; but the
delete-email endpoint additionally edits the pending rows of the client that
contain the removed address — the address is removed from their
`recipient_emails` snapshot, a row left with no recipients is cancelled, and
rows that are not pending, belong to another client, or do not contain the
address survive unchanged. -/
theorem recipient_snapshot_mutation_policy (clientId : Nat) (email : String)
    (rows : List ScheduledEmailRow) (r : ScheduledEmailRow)
    (outcomes : List RecipientOutcome) (now : Int) :
    ((updateAfterSend r outcomes now).recipient_emails = r.recipient_emails ∧
      (updateAfterSend r outcomes now).scheduled_date = r.scheduled_date ∧
      (updateAfterSend r outcomes now).scheduled_time = r.scheduled_time) ∧
    ((cancelRowUpdate r).recipient_emails = r.recipient_emails ∧
      (retryRowUpdate r).recipient_emails = r.recipient_emails) ∧
    (r ∈ rows →
      (¬ (r.client_id = clientId ∧ r.status = EmailStatus.pending ∧
          email ∈ r.recipient_emails) →
        r ∈ delete_email_update_rows rows clientId email) ∧
      (r.client_id = clientId → r.status = EmailStatus.pending →
        email ∈ r.recipient_emails →
        (r.recipient_emails.filter (fun e => e ≠ email) ≠ [] →
          { r with recipient_emails :=
              r.recipient_emails.filter (fun e => e ≠ email) }
            ∈ delete_email_update_rows rows clientId email) ∧
        (r.recipient_emails.filter (fun e => e ≠ email) = [] →
          { r with status := EmailStatus.cancelled }
            ∈ delete_email_update_rows rows clientId email))) := by
  refine ⟨⟨?_, ?_, ?_⟩, ⟨?_, ?_⟩, ?_⟩
  · unfold updateAfterSend
    split <;> simp
  · unfold updateAfterSend
    split <;> simp
  · unfold updateAfterSend
    split <;> simp
  · unfold cancelRowUpdate
    split <;> simp
  · simp [retryRowUpdate]
  · intro hr
    constructor
    · intro hneg
      have hpt : (fun r =>
          if r.client_id = clientId ∧ r.status = EmailStatus.pending ∧
              email ∈ r.recipient_emails then
            let updated := r.recipient_emails.filter (fun e => e ≠ email)
            if updated.isEmpty then { r with status := EmailStatus.cancelled }
            else { r with recipient_emails := updated }
          else r) r = r := by
        dsimp only
        rw [if_neg hneg]
      exact hpt ▸ List.mem_map_of_mem _ hr
    · intro hcl hpend hmem
      constructor
      · intro hfil
        have hempty : (r.recipient_emails.filter (fun e => e ≠ email)).isEmpty
            = false := by
          rcases hf : r.recipient_emails.filter (fun e => e ≠ email) with
            _ | ⟨a, as⟩
          · exact absurd hf hfil
          · simp
        have hpt : (fun r =>
            if r.client_id = clientId ∧ r.status = EmailStatus.pending ∧
                email ∈ r.recipient_emails then
              let updated := r.recipient_emails.filter (fun e => e ≠ email)
              if updated.isEmpty then { r with status := EmailStatus.cancelled }
              else { r with recipient_emails := updated }
            else r) r =
            { r with recipient_emails :=
                r.recipient_emails.filter (fun e => e ≠ email) } := by
          dsimp only
          rw [if_pos ⟨hcl, hpend, hmem⟩, hempty]
          simp
        exact hpt ▸ List.mem_map_of_mem _ hr
      · intro hfil
        have hempty : (r.recipient_emails.filter (fun e => e ≠ email)).isEmpty
            = true := by
          rw [hfil]
          simp
        have hpt : (fun r =>
            if r.client_id = clientId ∧ r.status = EmailStatus.pending ∧
                email ∈ r.recipient_emails then
              let updated := r.recipient_emails.filter (fun e => e ≠ email)
              if updated.isEmpty then { r with status := EmailStatus.cancelled }
              else { r with recipient_emails := updated }
            else r) r = { r with status := EmailStatus.cancelled } := by
          dsimp only
          rw [if_pos ⟨hcl, hpend, hmem⟩, hempty]
          simp
        exact hpt ▸ List.mem_map_of_mem _ hr

/-- Witness for C10 (amended): the delete of `a@x.com` leaves the
two-recipient pending row with only `b@x.com`, and the scheduler status
update leaves recipients untouched. -/
theorem recipient_snapshot_mutation_policy_witness :
    (updateAfterSend pendingRowAB partialOutcomes 5000).recipient_emails =
      pendingRowAB.recipient_emails ∧
    ({ pendingRowAB with recipient_emails := ["b@x.com"] }
      ∈ delete_email_update_rows [pendingRowAB] 1 "a@x.com") := by
  have h := recipient_snapshot_mutation_policy 1 "a@x.com" [pendingRowAB]
    pendingRowAB partialOutcomes 5000
  refine ⟨h.1.1, ?_⟩
  have h2 := ((h.2.2 (by decide)).2 rfl rfl (by decide)).1 (by decide)
  have hfil : pendingRowAB.recipient_emails.filter (fun e => e ≠ "a@x.com") =
      ["b@x.com"] := by decide
  rw [hfil] at h2
  exact h2
